import Mathlib

/-!
Verification of the gpt-home message-to-action pipeline.

Shallow embedding of the Go sources:
- `pkg/models/types.go` — data model (Device, DeviceAction, Conversation, …)
- `internal/device` — safety validator (`validator.go`) and registry/dispatcher
  (`manager.go`)
- `internal/conversation/manager.go` — conversation store
- `internal/llm/service.go` — both ProcessMessage variants (local and ollama)

Go `map[string]any` values are modelled as association lists over an
inductive `Value` type; Go `float64` is modelled as `ℚ` (only order
comparisons and truncation to `int` occur in the verified code, so rational
arithmetic is an exact model of the float operations used); Go `time.Time`
is modelled as `ℕ` nanoseconds.  Fallible calls return `Except String`.
-/

namespace GptHome

/-- A heterogeneous Go value (`any`) as it occurs in parameter maps. -/
inductive Value where
  | float (x : ℚ)
  | int (n : ℤ)
  | str (s : String)
  | other
deriving DecidableEq

/-- Parameter map `map[string]any`; `none` models a nil Go map. -/
abbrev Params := List (String × Value)

/-- Single-quote character, used to build Go error strings verbatim. -/
def sq : String := String.singleton (Char.ofNat 39)

/-- Numeric coercion switch from `validator.go`: `float64` and `int` cases
succeed, every other dynamic type falls to the default error branch. -/
def asFloat : Value → Option ℚ
  | .float x => some x
  | .int n => some (n : ℚ)
  | _ => none

/-- Go `int(x)` conversion from float64: truncation toward zero. -/
def truncQ (x : ℚ) : ℤ := if 0 ≤ x then ⌊x⌋ else ⌈x⌉

/-- `models.DeviceAction`. -/
structure DeviceAction where
  action : String
  parameters : Option Params
deriving DecidableEq

/-- `device.ValidationResult`. -/
structure ValidationResult where
  valid : Bool
  error : String
  warning : String
  safeAction : Option DeviceAction
deriving DecidableEq

/-- An invalid result with an error message (Go zero values elsewhere). -/
def invalidR (e : String) : ValidationResult :=
  { valid := false, error := e, warning := "", safeAction := none }

/-- `validateOnOff`: ensures a non-nil parameter map and accepts. -/
def validateOnOff (a : DeviceAction) : ValidationResult :=
  match a.parameters with
  | none =>
      { valid := true, error := "", warning := "",
        safeAction := some { a with parameters := some [] } }
  | some _ =>
      { valid := true, error := "", warning := "", safeAction := some a }

/-- `validateBrightness`: brightness must be numeric and in [0,255];
the safe action carries the value coerced to a Go `int`. -/
def validateBrightness (a : DeviceAction) : ValidationResult :=
  match a.parameters with
  | none => invalidR "brightness action requires parameters"
  | some ps =>
    match ps.lookup "brightness" with
    | none =>
        invalidR ("brightness action requires " ++ sq ++ "brightness" ++ sq
          ++ " parameter")
    | some v =>
      match asFloat v with
      | none => invalidR "brightness must be a number"
      | some x =>
        if x < 0 then
          { valid := false, error := "brightness cannot be negative",
            warning := "requested brightness was negative, clamped to 0",
            safeAction := none }
        else if x > 255 then
          { valid := false, error := "brightness cannot exceed 255",
            warning := "requested brightness exceeded 255, clamped to 255",
            safeAction := none }
        else
          { valid := true, error := "", warning := "",
            safeAction := some
              { action := a.action,
                parameters := some [("brightness", .int (truncQ x))] } }

/-- Rendering of a float in a Go `fmt.Sprintf` verb (`%.1f` / `%.0f`);
the exact digit string is irrelevant to every claim, so the numeral is
rendered by `toString` on the rational. -/
def goFmtF (q : ℚ) : String := toString q

/-- `validateTemperature`: [10,40] hard bounds, [16,28] comfort band. -/
def validateTemperature (a : DeviceAction) : ValidationResult :=
  match a.parameters with
  | none => invalidR "temperature action requires parameters"
  | some ps =>
    match ps.lookup "temperature" with
    | none =>
        invalidR ("temperature action requires " ++ sq ++ "temperature" ++ sq
          ++ " parameter")
    | some v =>
      match asFloat v with
      | none => invalidR "temperature must be a number"
      | some t =>
        if t < 10 ∨ t > 40 then
          { valid := false,
            error := "temperature " ++ goFmtF t
              ++ "°C is outside safe range (10-40°C)",
            warning := "extremely high or low temperature requested",
            safeAction := none }
        else
          { valid := true, error := "",
            warning :=
              if t < 16 then
                "temperature is very cold - ensure this is intentional"
              else if t > 28 then
                "temperature is very warm - ensure this is intentional"
              else "",
            safeAction := some
              { action := a.action,
                parameters := some [("temperature", .float t)] } }

/-- `validateColorTemp`: [2700,6500] Kelvin. -/
def validateColorTemp (a : DeviceAction) : ValidationResult :=
  match a.parameters with
  | none => invalidR "color_temp action requires parameters"
  | some ps =>
    match ps.lookup "color_temp" with
    | none =>
        invalidR ("color_temp action requires " ++ sq ++ "color_temp" ++ sq
          ++ " parameter")
    | some v =>
      match asFloat v with
      | none => invalidR "color_temp must be a number in kelvin"
      | some k =>
        if k < 2700 ∨ k > 6500 then
          { valid := false,
            error := "color temperature " ++ goFmtF k
              ++ "K is outside typical range (2700-6500K)",
            warning := "", safeAction := none }
        else
          { valid := true, error := "", warning := "",
            safeAction := some
              { action := a.action,
                parameters := some [("color_temp", .float k)] } }

/-- `validateHumidity`: [0,100]. -/
def validateHumidity (a : DeviceAction) : ValidationResult :=
  match a.parameters with
  | none => invalidR "humidity action requires parameters"
  | some ps =>
    match ps.lookup "humidity" with
    | none =>
        invalidR ("humidity action requires " ++ sq ++ "humidity" ++ sq
          ++ " parameter")
    | some v =>
      match asFloat v with
      | none => invalidR "humidity must be a number (0-100)"
      | some h =>
        if h < 0 ∨ h > 100 then
          invalidR "humidity must be between 0 and 100"
        else
          { valid := true, error := "", warning := "",
            safeAction := some
              { action := a.action,
                parameters := some [("humidity", .float h)] } }

/-- `validateCoverAction`: only reached for "open"/"close", which it
re-checks; ensures a non-nil parameter map and accepts. -/
def validateCoverAction (a : DeviceAction) : ValidationResult :=
  let a2 : DeviceAction :=
    match a.parameters with
    | none => { a with parameters := some [] }
    | some _ => a
  if a2.action ≠ "open" ∧ a2.action ≠ "close" then
    invalidR ("cover action must be " ++ sq ++ "open" ++ sq ++ " or " ++ sq
      ++ "close" ++ sq)
  else
    { valid := true, error := "", warning := "", safeAction := some a2 }

/-- `Validator.ValidateAction`; the `Option` argument models the `nil`
pointer check at the top of the Go function. -/
def ValidateAction : Option DeviceAction → ValidationResult
  | none => invalidR "action cannot be nil"
  | some a =>
    match a.action with
    | "turn_on" => validateOnOff a
    | "turn_off" => validateOnOff a
    | "set_brightness" => validateBrightness a
    | "set_temperature" => validateTemperature a
    | "set_color_temp" => validateColorTemp a
    | "set_humidity" => validateHumidity a
    | "open" => validateCoverAction a
    | "close" => validateCoverAction a
    | other => invalidR ("unknown action: " ++ other)

lemma validateOnOff_isSome (a : DeviceAction) :
    (validateOnOff a).safeAction.isSome = (validateOnOff a).valid := by
  cases h : a.parameters <;> simp [validateOnOff, h]

lemma validateBrightness_isSome (a : DeviceAction) :
    (validateBrightness a).safeAction.isSome = (validateBrightness a).valid := by
  unfold validateBrightness
  repeat' split
  all_goals simp [invalidR]

lemma validateTemperature_isSome (a : DeviceAction) :
    (validateTemperature a).safeAction.isSome = (validateTemperature a).valid := by
  unfold validateTemperature
  repeat' split
  all_goals simp [invalidR]

lemma validateColorTemp_isSome (a : DeviceAction) :
    (validateColorTemp a).safeAction.isSome = (validateColorTemp a).valid := by
  unfold validateColorTemp
  repeat' split
  all_goals simp [invalidR]

lemma validateHumidity_isSome (a : DeviceAction) :
    (validateHumidity a).safeAction.isSome = (validateHumidity a).valid := by
  unfold validateHumidity
  repeat' split
  all_goals simp [invalidR]

lemma validateCoverAction_isSome (a : DeviceAction) :
    (validateCoverAction a).safeAction.isSome = (validateCoverAction a).valid := by
  unfold validateCoverAction
  by_cases h : ¬a.action = "open" ∧ ¬a.action = "close" <;>
    rcases hp : a.parameters with _ | ps <;>
      simp [hp, h, invalidR]

/-- Shared invariant: a validation result carries a safe action exactly
when it is valid.  Used both for claim C2 and inside the dispatcher proof. -/
lemma ValidateAction_isSome_eq_valid (oa : Option DeviceAction) :
    (ValidateAction oa).safeAction.isSome = (ValidateAction oa).valid := by
  unfold ValidateAction
  split
  · simp [invalidR]
  · rename_i a
    split <;>
      first
        | exact validateOnOff_isSome a
        | exact validateBrightness_isSome a
        | exact validateTemperature_isSome a
        | exact validateColorTemp_isSome a
        | exact validateHumidity_isSome a
        | exact validateCoverAction_isSome a
        | simp [invalidR]

/-- Claim C2: for every input action (any action name, any parameter map,
including nil), the ValidationResult returned by ValidateAction has
SafeAction non-nil if and only if Valid is true. -/
theorem claim_C2 (oa : Option DeviceAction) :
    (ValidateAction oa).safeAction.isSome = true ↔
      (ValidateAction oa).valid = true := by
  rw [ValidateAction_isSome_eq_valid oa]

lemma ValidateAction_brightness (ps : Option Params) :
    ValidateAction (some ⟨"set_brightness", ps⟩)
      = validateBrightness ⟨"set_brightness", ps⟩ := rfl

/-- Claim C3: for numeric brightness v with 0 ≤ v ≤ 255, validation
succeeds and the safe action carries `int(v)`; for v < 0 (resp. v > 255)
validation fails with no safe action and the warning names clamp target 0
(resp. 255); a missing or non-numeric brightness parameter fails with an
error naming the field. -/
theorem claim_C3 (ps : Params) (v : Value) (x : ℚ) :
    (ps.lookup "brightness" = some v → asFloat v = some x →
      ((0 ≤ x → x ≤ 255 →
          (ValidateAction (some ⟨"set_brightness", some ps⟩)) =
            { valid := true, error := "", warning := "",
              safeAction := some ⟨"set_brightness",
                some [("brightness", Value.int (truncQ x))]⟩ })
        ∧ (x < 0 →
            (ValidateAction (some ⟨"set_brightness", some ps⟩)) =
              { valid := false, error := "brightness cannot be negative",
                warning := "requested brightness was negative, clamped to 0",
                safeAction := none })
        ∧ (255 < x →
            (ValidateAction (some ⟨"set_brightness", some ps⟩)) =
              { valid := false, error := "brightness cannot exceed 255",
                warning := "requested brightness exceeded 255, clamped to 255",
                safeAction := none })))
  ∧ (ps.lookup "brightness" = none →
      (ValidateAction (some ⟨"set_brightness", some ps⟩)) =
        invalidR ("brightness action requires " ++ sq ++ "brightness" ++ sq
          ++ " parameter"))
  ∧ (ps.lookup "brightness" = some v → asFloat v = none →
      (ValidateAction (some ⟨"set_brightness", some ps⟩)) =
        invalidR "brightness must be a number")
  ∧ (ValidateAction (some ⟨"set_brightness", none⟩) =
      invalidR "brightness action requires parameters") := by
  rw [ValidateAction_brightness, ValidateAction_brightness]
  refine ⟨fun hv hx => ⟨?_, ?_, ?_⟩, fun hv => ?_, fun hv hx => ?_, ?_⟩
  · intro h0 h255
    have hn0 : ¬x < 0 := not_lt.mpr h0
    have hn255 : ¬x > 255 := not_lt.mpr h255
    simp [validateBrightness, hv, hx, hn0, hn255]
  · intro hlt
    simp [validateBrightness, hv, hx, hlt]
  · intro hgt
    have hn0 : ¬x < 0 := by exact not_lt.mpr (by linarith)
    simp [validateBrightness, hv, hx, hn0, hgt]
  · simp [validateBrightness, hv]
  · simp [validateBrightness, hv, hx]
  · simp [validateBrightness]

/-- Witness for claim C3: brightness 200.5 validates to a safe action
carrying the integer 200. -/
theorem claim_C3_witness :
    ValidateAction (some ⟨"set_brightness",
        some [("brightness", Value.float (401/2))]⟩) =
      { valid := true, error := "", warning := "",
        safeAction := some ⟨"set_brightness",
          some [("brightness", Value.int 200)]⟩ } := by
  have h := ((claim_C3 [("brightness", Value.float (401/2))]
      (Value.float (401/2)) (401/2)).1 rfl rfl).1 (by norm_num) (by norm_num)
  have ht : truncQ (401/2) = 200 := by
    rw [truncQ, if_pos (by norm_num)]
    norm_num [Int.floor_eq_iff]
  rw [h, ht]

lemma ValidateAction_temperature (ps : Option Params) :
    ValidateAction (some ⟨"set_temperature", ps⟩)
      = validateTemperature ⟨"set_temperature", ps⟩ := rfl

/-- Claim C4: for numeric temperature t, validation succeeds exactly when
10 ≤ t ≤ 40; the warning is non-empty exactly when t lies outside [16,28];
outside [10,40] validation fails with an error stating the unsafe range. -/
theorem claim_C4 (ps : Params) (v : Value) (t : ℚ)
    (hv : ps.lookup "temperature" = some v) (ht : asFloat v = some t) :
    ((ValidateAction (some ⟨"set_temperature", some ps⟩)).valid = true ↔
        10 ≤ t ∧ t ≤ 40)
  ∧ (¬(ValidateAction (some ⟨"set_temperature", some ps⟩)).warning = "" ↔
        (t < 16 ∨ 28 < t))
  ∧ (t < 10 ∨ 40 < t →
      (ValidateAction (some ⟨"set_temperature", some ps⟩)).valid = false
      ∧ (ValidateAction (some ⟨"set_temperature", some ps⟩)).error =
          "temperature " ++ goFmtF t ++ "°C is outside safe range (10-40°C)") := by
  rw [ValidateAction_temperature]
  by_cases hout : t < 10 ∨ t > 40
  · refine ⟨?_, ?_, fun _ => ?_⟩
    · simp only [validateTemperature, hv, ht, if_pos hout]
      constructor
      · intro h; cases h
      · rintro ⟨h10, h40⟩
        rcases hout with h | h <;> linarith
    · simp only [validateTemperature, hv, ht, if_pos hout]
      constructor
      · intro _
        rcases hout with h | h
        · exact Or.inl (by linarith)
        · exact Or.inr (by linarith)
      · intro _
        decide
    · simp [validateTemperature, hv, ht, if_pos hout]
  · push_neg at hout
    obtain ⟨h10, h40⟩ := hout
    have hnout : ¬(t < 10 ∨ t > 40) := by
      rintro (h | h) <;> linarith
    refine ⟨?_, ?_, fun h => ?_⟩
    · simp only [validateTemperature, hv, ht, if_neg hnout]
      simp only [true_iff]
      exact ⟨h10, h40⟩
    · simp only [validateTemperature, hv, ht, if_neg hnout]
      by_cases h16 : t < 16
      · simp only [if_pos h16]
        constructor
        · intro _; exact Or.inl h16
        · intro _; decide
      · by_cases h28 : t > 28
        · simp only [if_neg h16, if_pos h28]
          constructor
          · intro _; exact Or.inr h28
          · intro _; decide
        · simp only [if_neg h16, if_neg h28]
          constructor
          · intro h; exact absurd (by trivial) h
          · rintro (h | h)
            · exact absurd h h16
            · exact absurd h h28
    · exact absurd h hnout

/-- Witness for claim C4: temperature 30 is valid with a comfort warning. -/
theorem claim_C4_witness :
    ((ValidateAction (some ⟨"set_temperature",
        some [("temperature", Value.int 30)]⟩)).valid = true ↔
      (10 : ℚ) ≤ 30 ∧ (30 : ℚ) ≤ 40)
  ∧ (¬(ValidateAction (some ⟨"set_temperature",
        some [("temperature", Value.int 30)]⟩)).warning = "" ↔
      ((30 : ℚ) < 16 ∨ (28 : ℚ) < 30)) :=
  let h := claim_C4 [("temperature", Value.int 30)] (Value.int 30) 30 rfl rfl
  ⟨h.1, h.2.1⟩

/-- `models.Device`. -/
structure Device where
  id : String
  name : String
  type : String
  state : String
  attributes : Params
  lastUpdated : ℕ
  domain : String
  entityID : String
deriving DecidableEq

/-- `homeassistant.ClientInterface`: the external gateway, modelled as one
deterministic outcome per entry point (each embedded operation invokes each
entry point at most once). -/
structure ClientInterface where
  getEntities : Except String (List Device)
  getEntity : String → Except String Device
  callService : String → String → String → Params → Except String Unit
  testConnection : Except String Unit

/-- One observable gateway invocation, recorded in a trace. -/
inductive GatewayCall where
  | listAll
  | getOne (entityID : String)
  | callSvc (domain service entityID : String) (data : Params)
  | testConn
deriving DecidableEq

/-- `device.Manager`: device cache plus last refresh time (ns). -/
structure Manager where
  devices : List (String × Device)
  lastUpdate : ℕ
deriving DecidableEq

/-- The 30-second freshness window (`30*time.Second` in ns). -/
def staleWindowNs : ℕ := 30 * 1000000000

/-- Go map assignment `m[k] = v` on an association list. -/
def upsert (ps : Params) (k : String) (v : Value) : Params :=
  (k, v) :: ps.filter (fun p => ¬p.1 = k)

/-- Keep only call-service invocations of a gateway trace. -/
def svcCalls : List GatewayCall → List GatewayCall :=
  List.filter (fun g => match g with
    | .callSvc _ _ _ _ => true
    | _ => false)

/-- `Manager.GetDevice`: cached entry wins unconditionally; a miss does one
point lookup and merges the result into the cache. -/
def GetDevice (m : Manager) (c : ClientInterface) (deviceID : String) :
    Except String Device × List GatewayCall × Manager :=
  match m.devices.lookup deviceID with
  | some d => (.ok d, [], m)
  | none =>
    match c.getEntity deviceID with
    | .error _ =>
        (.error ("device not found: " ++ deviceID), [.getOne deviceID], m)
    | .ok d =>
        (.ok d, [.getOne deviceID],
          { m with devices :=
              (deviceID, d) :: m.devices.filter (fun p => ¬p.1 = deviceID) })

/-- `Manager.RefreshDevices`: on success the cache is replaced wholesale
and the clock stamped; on gateway failure the state is untouched. -/
def RefreshDevices (m : Manager) (c : ClientInterface) (now : ℕ) :
    Except String Unit × List GatewayCall × Manager :=
  match c.getEntities with
  | .error e =>
      (.error ("failed to fetch devices from HomeAssistant: " ++ e),
        [.listAll], m)
  | .ok ds =>
      (.ok (), [.listAll],
        { devices := ds.map (fun d => (d.id, d)), lastUpdate := now })

/-- The device list handed back to callers (`GetAllDevices` loop body). -/
def snapshot (m : Manager) : List Device := m.devices.map (fun p => p.2)

/-- `Manager.GetAllDevices`: refresh when strictly older than the window;
a failed refresh surfaces only over an empty cache. -/
def GetAllDevices (m : Manager) (c : ClientInterface) (now : ℕ) :
    Except String (List Device) × List GatewayCall × Manager :=
  if staleWindowNs < now - m.lastUpdate then
    match RefreshDevices m c now with
    | (.error e, tr, m1) =>
        if m1.devices.length = 0 then (.error e, tr, m1)
        else (.ok (snapshot m1), tr, m1)
    | (.ok _, tr, m1) => (.ok (snapshot m1), tr, m1)
  else (.ok (snapshot m), [], m)

/-- `Manager.mapActionToService`: pure mapping from (device type, action,
parameters) to (domain, service, service data). -/
def mapActionToService (device : Device) (action : DeviceAction) :
    String × String × Params :=
  let sd : Params :=
    match action.parameters with
    | none => []
    | some ps => ps
  if device.type = "light" then
    match action.action with
    | "turn_on" => ("light", "turn_on", sd)
    | "turn_off" => ("light", "turn_off", sd)
    | "toggle" => ("light", "toggle", sd)
    | "set_brightness" =>
        ("light", "turn_on",
          match sd.lookup "brightness" with
          | some b => upsert sd "brightness" b
          | none => sd)
    | "set_color" =>
        ("light", "turn_on",
          match sd.lookup "rgb_color" with
          | some rgb => upsert sd "rgb_color" rgb
          | none => sd)
    | _ => ("light", "", sd)
  else if device.type = "switch" then
    match action.action with
    | "turn_on" => ("switch", "turn_on", sd)
    | "turn_off" => ("switch", "turn_off", sd)
    | "toggle" => ("switch", "toggle", sd)
    | _ => ("switch", "", sd)
  else if device.type = "climate" then
    match action.action with
    | "set_temperature" =>
        ("climate", "set_temperature",
          match sd.lookup "temperature" with
          | some t => upsert sd "temperature" t
          | none => sd)
    | "set_hvac_mode" =>
        ("climate", "set_hvac_mode",
          match sd.lookup "hvac_mode" with
          | some hm => upsert sd "hvac_mode" hm
          | none => sd)
    | _ => ("climate", "", sd)
  else if device.type = "cover" then
    match action.action with
    | "open" => ("cover", "open_cover", sd)
    | "close" => ("cover", "close_cover", sd)
    | "stop" => ("cover", "stop_cover", sd)
    | "set_position" =>
        ("cover", "set_cover_position",
          match sd.lookup "position" with
          | some p => upsert sd "position" p
          | none => sd)
    | _ => ("cover", "", sd)
  else if device.type = "fan" then
    match action.action with
    | "turn_on" => ("fan", "turn_on", sd)
    | "turn_off" => ("fan", "turn_off", sd)
    | "toggle" => ("fan", "toggle", sd)
    | "set_speed" =>
        ("fan", "set_percentage",
          match sd.lookup "percentage" with
          | some s => upsert sd "percentage" s
          | none => sd)
    | _ => ("fan", "", sd)
  else if device.type = "media_player" then
    match action.action with
    | "play" => ("media_player", "media_play", sd)
    | "pause" => ("media_player", "media_pause", sd)
    | "stop" => ("media_player", "media_stop", sd)
    | "volume_set" =>
        ("media_player", "volume_set",
          match sd.lookup "volume_level" with
          | some v => upsert sd "volume_level" v
          | none => sd)
    | _ => ("media_player", "", sd)
  else ("", "", sd)

/-- `Manager.ExecuteActionOnDevice`: resolve → validate → map → dispatch.
The `none` safe-action branch mirrors the nil-pointer dereference Go would
hit there; it is unreachable by `ValidateAction_isSome_eq_valid`. -/
def ExecuteActionOnDevice (m : Manager) (c : ClientInterface)
    (deviceID : String) (action : DeviceAction) :
    Except String Unit × List GatewayCall × Manager :=
  match GetDevice m c deviceID with
  | (.error _, tr1, m1) => (.error ("device not found: " ++ deviceID), tr1, m1)
  | (.ok dev, tr1, m1) =>
    let vr := ValidateAction (some action)
    if vr.valid = false then
      (.error ("action validation failed: " ++ vr.error), tr1, m1)
    else
      match vr.safeAction with
      | none => (.error "runtime error: nil SafeAction", tr1, m1)
      | some safe =>
        match mapActionToService dev safe with
        | (domain, service, serviceData) =>
          if domain = "" ∨ service = "" then
            (.error ("unsupported action " ++ safe.action
              ++ " for device type " ++ dev.type), tr1, m1)
          else
            match c.callService domain service deviceID serviceData with
            | .error e =>
                (.error ("failed to execute action: " ++ e),
                  tr1 ++ [.callSvc domain service deviceID serviceData], m1)
            | .ok _ =>
                (.ok (),
                  tr1 ++ [.callSvc domain service deviceID serviceData], m1)

lemma GetDevice_svcCalls (m : Manager) (c : ClientInterface) (deviceID : String) :
    svcCalls (GetDevice m c deviceID).2.1 = [] := by
  unfold GetDevice
  rcases h : m.devices.lookup deviceID with _ | d
  · rcases hg : c.getEntity deviceID with e | d <;> simp [svcCalls]
  · simp [svcCalls]

/-- Claim C1: ExecuteActionOnDevice resolves, validates and maps before
dispatch: a validation failure or an empty mapped domain/service returns an
error with zero call-service gateway calls (and, for a cached device, zero
gateway calls of any kind); otherwise exactly one call-service call is
made, whose failure is wrapped as an execution error. -/
theorem claim_C1 (m : Manager) (c : ClientInterface) (deviceID : String)
    (action : DeviceAction) :
    ((ValidateAction (some action)).valid = false →
        (∃ e, (ExecuteActionOnDevice m c deviceID action).1 = .error e)
        ∧ svcCalls (ExecuteActionOnDevice m c deviceID action).2.1 = [])
  ∧ ((m.devices.lookup deviceID).isSome = true →
        (ValidateAction (some action)).valid = false →
        (ExecuteActionOnDevice m c deviceID action).2.1 = [])
  ∧ (∀ dev tr1 m1 sa dom svc data,
        GetDevice m c deviceID = (.ok dev, tr1, m1) →
        (ValidateAction (some action)).valid = true →
        (ValidateAction (some action)).safeAction = some sa →
        mapActionToService dev sa = (dom, svc, data) →
        ((dom = "" ∨ svc = "") →
            (∃ e, (ExecuteActionOnDevice m c deviceID action).1 = .error e)
            ∧ svcCalls (ExecuteActionOnDevice m c deviceID action).2.1 = [])
        ∧ (¬dom = "" → ¬svc = "" →
            svcCalls (ExecuteActionOnDevice m c deviceID action).2.1
              = [GatewayCall.callSvc dom svc deviceID data]
            ∧ (∀ e, c.callService dom svc deviceID data = .error e →
                (ExecuteActionOnDevice m c deviceID action).1
                  = .error ("failed to execute action: " ++ e))
            ∧ (∀ u, c.callService dom svc deviceID data = .ok u →
                (ExecuteActionOnDevice m c deviceID action).1 = .ok ()))) := by
  refine ⟨?_, ?_, ?_⟩
  · intro hval
    rcases hgd : GetDevice m c deviceID with ⟨dres, tr1, m1⟩
    have htr : svcCalls tr1 = [] := by
      have h := GetDevice_svcCalls m c deviceID
      rw [hgd] at h
      exact h
    cases dres with
    | error e =>
        unfold ExecuteActionOnDevice
        rw [hgd]
        exact ⟨⟨_, rfl⟩, htr⟩
    | ok dev =>
        unfold ExecuteActionOnDevice
        rw [hgd]
        simp only [hval, if_pos]
        exact ⟨⟨_, rfl⟩, htr⟩
  · intro hsome hval
    rcases hl : m.devices.lookup deviceID with _ | d
    · rw [hl] at hsome; cases hsome
    · have hgd : GetDevice m c deviceID = (.ok d, [], m) := by
        unfold GetDevice; rw [hl]
      unfold ExecuteActionOnDevice
      rw [hgd]
      simp only [hval, if_pos]
  · intro dev tr1 m1 sa dom svc data hgd hval hsa hmap
    have htr : svcCalls tr1 = [] := by
      have h := GetDevice_svcCalls m c deviceID
      rw [hgd] at h
      exact h
    have hexec : ExecuteActionOnDevice m c deviceID action =
        (if dom = "" ∨ svc = "" then
            (.error ("unsupported action " ++ sa.action
              ++ " for device type " ++ dev.type), tr1, m1)
          else
            match c.callService dom svc deviceID data with
            | .error e =>
                (.error ("failed to execute action: " ++ e),
                  tr1 ++ [.callSvc dom svc deviceID data], m1)
            | .ok _ =>
                (.ok (), tr1 ++ [.callSvc dom svc deviceID data], m1)) := by
      unfold ExecuteActionOnDevice
      rw [hgd]
      simp [hval, hsa, hmap]
    constructor
    · intro hempty
      rw [hexec, if_pos hempty]
      exact ⟨⟨_, rfl⟩, htr⟩
    · intro hdom hsvc
      have hne : ¬(dom = "" ∨ svc = "") := by
        rintro (h | h)
        · exact hdom h
        · exact hsvc h
      rw [hexec, if_neg hne]
      simp only [svcCalls] at htr
      rcases hcall : c.callService dom svc deviceID data with e | u
      · refine ⟨?_, ?_, ?_⟩
        · simp [svcCalls, List.filter_append, htr]
        · intro e2 he2
          injection he2 with h
          subst h
          rfl
        · intro u hu
          simp at hu
      · refine ⟨?_, ?_, ?_⟩
        · simp [svcCalls, List.filter_append, htr]
        · intro e2 he2
          simp at he2
        · intro u2 _
          rfl

/-- A concrete light device used by the dispatcher/registry witnesses. -/
def devLight : Device :=
  { id := "light.bedroom", name := "Bedroom Light", type := "light",
    state := "off", attributes := [], lastUpdated := 0,
    domain := "light", entityID := "light.bedroom" }

/-- A manager whose cache holds exactly the bedroom light. -/
def mgrW : Manager := { devices := [("light.bedroom", devLight)], lastUpdate := 0 }

/-- A gateway on which every call succeeds. -/
def clientOk : ClientInterface :=
  { getEntities := .ok [devLight],
    getEntity := fun _ => .ok devLight,
    callService := fun _ _ _ _ => .ok (),
    testConnection := .ok () }

/-- A gateway on which every call fails. -/
def clientErr : ClientInterface :=
  { getEntities := .error "connection refused",
    getEntity := fun _ => .error "connection refused",
    callService := fun _ _ _ _ => .error "connection refused",
    testConnection := .error "connection refused" }

/-- Witness for claim C1: turn_on on a cached light dispatches exactly one
call-service gateway call and succeeds. -/
theorem claim_C1_witness :
    svcCalls (ExecuteActionOnDevice mgrW clientOk "light.bedroom"
        ⟨"turn_on", none⟩).2.1
      = [GatewayCall.callSvc "light" "turn_on" "light.bedroom" []]
    ∧ (ExecuteActionOnDevice mgrW clientOk "light.bedroom"
        ⟨"turn_on", none⟩).1 = .ok () := by
  have h := ((claim_C1 mgrW clientOk "light.bedroom" ⟨"turn_on", none⟩).2.2
      devLight [] mgrW ⟨"turn_on", some []⟩ "light" "turn_on" []
      rfl rfl rfl rfl).2 (by decide) (by decide)
  exact ⟨h.1, h.2.2 () rfl⟩

lemma getAll_fresh (m : Manager) (c : ClientInterface) (now : ℕ)
    (hfresh : ¬ staleWindowNs < now - m.lastUpdate) :
    GetAllDevices m c now = (.ok (snapshot m), [], m) := by
  rw [GetAllDevices, if_neg hfresh]

lemma refresh_err (m : Manager) (c : ClientInterface) (now : ℕ) (e : String)
    (hge : c.getEntities = .error e) :
    RefreshDevices m c now =
      (.error ("failed to fetch devices from HomeAssistant: " ++ e),
        [.listAll], m) := by
  rw [RefreshDevices, hge]

lemma refresh_ok (m : Manager) (c : ClientInterface) (now : ℕ)
    (ds : List Device) (hge : c.getEntities = .ok ds) :
    RefreshDevices m c now =
      (.ok (), [.listAll], ⟨ds.map (fun d => (d.id, d)), now⟩) := by
  rw [RefreshDevices, hge]

lemma getAll_stale_err (m : Manager) (c : ClientInterface) (now : ℕ)
    (e : String) (hstale : staleWindowNs < now - m.lastUpdate)
    (hge : c.getEntities = .error e) :
    GetAllDevices m c now =
      (if m.devices.length = 0 then
          (.error ("failed to fetch devices from HomeAssistant: " ++ e),
            [GatewayCall.listAll], m)
        else (.ok (snapshot m), [GatewayCall.listAll], m)) := by
  rw [GetAllDevices, if_pos hstale, refresh_err m c now e hge]

lemma getAll_stale_ok (m : Manager) (c : ClientInterface) (now : ℕ)
    (ds : List Device) (hstale : staleWindowNs < now - m.lastUpdate)
    (hge : c.getEntities = .ok ds) :
    GetAllDevices m c now =
      (.ok (snapshot ⟨ds.map (fun d => (d.id, d)), now⟩),
        [GatewayCall.listAll], ⟨ds.map (fun d => (d.id, d)), now⟩) := by
  rw [GetAllDevices, if_pos hstale, refresh_ok m c now ds hge]

/-- Counterexample to claim C6 as stated: a read made exactly 30 seconds
after the last refresh ("30 seconds or more") makes zero gateway calls —
the code refreshes only when the elapsed time strictly exceeds 30s. -/
theorem claim_C6_counterexample :
    staleWindowNs - mgrW.lastUpdate = staleWindowNs
    ∧ (GetAllDevices mgrW clientOk staleWindowNs).2.1 = []
    ∧ (GetAllDevices mgrW clientOk staleWindowNs).1 = .ok [devLight] := by
  have h := getAll_fresh mgrW clientOk staleWindowNs (by decide)
  rw [h]
  exact ⟨rfl, rfl, rfl⟩

/-- Claim C6 (amended): a read at most 30 seconds after the last refresh
makes zero gateway calls and returns the cached snapshot; a read strictly
more than 30 seconds after triggers exactly one list-all refresh call,
which on success replaces the cache wholesale. -/
theorem claim_C6_amended (m : Manager) (c : ClientInterface) (now : ℕ) :
    (now - m.lastUpdate ≤ staleWindowNs →
        (GetAllDevices m c now).2.1 = []
        ∧ (GetAllDevices m c now).1 = .ok (snapshot m)
        ∧ (GetAllDevices m c now).2.2 = m)
  ∧ (staleWindowNs < now - m.lastUpdate →
        (GetAllDevices m c now).2.1 = [GatewayCall.listAll]
        ∧ (∀ ds, c.getEntities = .ok ds →
            (GetAllDevices m c now).2.2.devices = ds.map (fun d => (d.id, d))
            ∧ (GetAllDevices m c now).2.2.lastUpdate = now
            ∧ (GetAllDevices m c now).1
                = .ok (((GetAllDevices m c now).2.2).devices.map
                    (fun p => p.2)))) := by
  constructor
  · intro hfresh
    rw [getAll_fresh m c now (not_lt.mpr hfresh)]
    exact ⟨rfl, rfl, rfl⟩
  · intro hstale
    constructor
    · rcases hge : c.getEntities with e | ds
      · rw [getAll_stale_err m c now e hstale hge]
        by_cases hlen : m.devices.length = 0
        · rw [if_pos hlen]
        · rw [if_neg hlen]
      · rw [getAll_stale_ok m c now ds hstale hge]
    · intro ds hds
      rw [getAll_stale_ok m c now ds hstale hds]
      exact ⟨rfl, rfl, rfl⟩

/-- Witness for the amended claim C6: a stale read against a healthy
gateway makes exactly one list-all call and installs the fresh list. -/
theorem claim_C6_amended_witness :
    (GetAllDevices mgrW clientOk (staleWindowNs + 1)).2.1
      = [GatewayCall.listAll]
    ∧ (GetAllDevices mgrW clientOk (staleWindowNs + 1)).2.2.devices
        = [devLight].map (fun d => (d.id, d)) := by
  have h := (claim_C6_amended mgrW clientOk (staleWindowNs + 1)).2 (by decide)
  exact ⟨h.1, (h.2 [devLight] rfl).1⟩

/-- Claim C7: a failed refresh leaves the cache untouched; GetAllDevices
surfaces a refresh error only over an empty cache, and over a non-empty
stale cache it returns the stale snapshot without error. -/
theorem claim_C7 (m : Manager) (c : ClientInterface) (now : ℕ) (e : String)
    (hge : c.getEntities = .error e) :
    (RefreshDevices m c now).2.2 = m
  ∧ (∀ e2, (GetAllDevices m c now).1 = .error e2 → m.devices = [])
  ∧ (staleWindowNs < now - m.lastUpdate → ¬m.devices = [] →
      (GetAllDevices m c now).1 = .ok (snapshot m)
      ∧ (GetAllDevices m c now).2.2 = m) := by
  refine ⟨by rw [refresh_err m c now e hge], ?_, ?_⟩
  · intro e2 he2
    by_cases hstale : staleWindowNs < now - m.lastUpdate
    · rw [getAll_stale_err m c now e hstale hge] at he2
      by_cases hlen : m.devices.length = 0
      · exact List.length_eq_zero.mp hlen
      · rw [if_neg hlen] at he2
        cases he2
    · rw [getAll_fresh m c now hstale] at he2
      cases he2
  · intro hstale hne
    have hlen : ¬m.devices.length = 0 := by
      intro h
      exact hne (List.length_eq_zero.mp h)
    rw [getAll_stale_err m c now e hstale hge, if_neg hlen]
    exact ⟨rfl, rfl⟩

/-- Witness for claim C7: with the gateway down and a non-empty stale
cache, the stale snapshot is returned without error and nothing changes. -/
theorem claim_C7_witness :
    (RefreshDevices mgrW clientErr (staleWindowNs + 5)).2.2 = mgrW
    ∧ (GetAllDevices mgrW clientErr (staleWindowNs + 5)).1 = .ok [devLight] := by
  have h := claim_C7 mgrW clientErr (staleWindowNs + 5) "connection refused" rfl
  exact ⟨h.1, (h.2.2 (by decide) (by decide)).1⟩

/-- Claim C10: a cache hit in GetDevice returns the cached entry with zero
gateway calls no matter how stale the cache is; only a miss performs one
point lookup, merged into the cache on success. -/
theorem claim_C10 (m : Manager) (c : ClientInterface) (deviceID : String) :
    (∀ d, m.devices.lookup deviceID = some d →
        GetDevice m c deviceID = (.ok d, [], m))
  ∧ (m.devices.lookup deviceID = none →
        (GetDevice m c deviceID).2.1 = [GatewayCall.getOne deviceID]
        ∧ (∀ d, c.getEntity deviceID = .ok d →
            (GetDevice m c deviceID).1 = .ok d
            ∧ (GetDevice m c deviceID).2.2.devices
                = (deviceID, d)
                  :: m.devices.filter (fun p => ¬p.1 = deviceID))
        ∧ (∀ e, c.getEntity deviceID = .error e →
            GetDevice m c deviceID
              = (.error ("device not found: " ++ deviceID),
                  [GatewayCall.getOne deviceID], m))) := by
  constructor
  · intro d hd
    rw [GetDevice, hd]
  · intro hnone
    refine ⟨?_, ?_, ?_⟩
    · rw [GetDevice, hnone]
      rcases hge : c.getEntity deviceID with e | d <;> rfl
    · intro d hd
      rw [GetDevice, hnone, hd]
      exact ⟨rfl, rfl⟩
    · intro e he
      rw [GetDevice, hnone, he]

/-- Witness for claim C10: the cached bedroom light is returned directly
with an empty gateway trace even with an arbitrarily old cache. -/
theorem claim_C10_witness :
    GetDevice mgrW clientErr "light.bedroom" = (.ok devLight, [], mgrW) :=
  (claim_C10 mgrW clientErr "light.bedroom").1 devLight rfl

/-- `models.Message` (metadata is irrelevant to every claim about the
store and is omitted; timestamps are ns). -/
structure Message where
  id : ℕ
  role : String
  content : String
  timestamp : ℕ
deriving DecidableEq

/-- `models.Context`. -/
structure Context where
  referencedDevices : List String
  lastAction : Option DeviceAction
  userPreferences : List (String × String)
  sessionData : Params
deriving DecidableEq

/-- The fresh Context built by `CreateConversation`. -/
def emptyContext : Context := ⟨[], none, [], []⟩

/-- `models.Conversation` (ids are ℕ standing for UUIDs). -/
structure Conversation where
  id : ℕ
  messages : List Message
  createdAt : ℕ
  updatedAt : ℕ
  context : Context
deriving DecidableEq

/-- The conversation map, as an association-by-id list. -/
abbrev ConvStore := List Conversation

/-- Map lookup `m.conversations[id]`. -/
def findConv (s : ConvStore) (id : ℕ) : Option Conversation :=
  s.find? (fun c => c.id == id)

/-- Removal of an id, used to model map overwrite/delete. -/
def eraseConv (s : ConvStore) (id : ℕ) : ConvStore :=
  s.filter (fun c => !(c.id == id))

/-- `Manager.GetRecentMessages`.  The nested condition is the Go slice
bound check for `messages[len(messages)-limit:]` (valid iff
`0 ≤ low ≤ len`); a violation is a runtime panic, modelled as `none`. -/
def GetRecentMessages (s : ConvStore) (conversationID : ℕ) (limit : ℤ) :
    Option (Except String (List Message)) :=
  match findConv s conversationID with
  | none =>
      some (.error ("conversation not found: " ++ toString conversationID))
  | some conv =>
    if (conv.messages.length : ℤ) ≤ limit then some (.ok conv.messages)
    else
      if 0 ≤ (conv.messages.length : ℤ) - limit
          ∧ (conv.messages.length : ℤ) - limit ≤ (conv.messages.length : ℤ)
      then some (.ok (conv.messages.drop
          ((conv.messages.length : ℤ) - limit).toNat))
      else none

lemma getRecent_notfound (s : ConvStore) (conversationID : ℕ) (limit : ℤ)
    (h : findConv s conversationID = none) :
    GetRecentMessages s conversationID limit
      = some (.error ("conversation not found: "
          ++ toString conversationID)) := by
  rw [GetRecentMessages, h]

lemma getRecent_found (s : ConvStore) (conversationID : ℕ) (limit : ℤ)
    (conv : Conversation) (h : findConv s conversationID = some conv) :
    GetRecentMessages s conversationID limit
      = (if (conv.messages.length : ℤ) ≤ limit then some (.ok conv.messages)
        else
          if 0 ≤ (conv.messages.length : ℤ) - limit
              ∧ (conv.messages.length : ℤ) - limit
                  ≤ (conv.messages.length : ℤ)
          then some (.ok (conv.messages.drop
              ((conv.messages.length : ℤ) - limit).toNat))
          else none) := by
  rw [GetRecentMessages, h]

/-- Counterexample to claim C8 as stated: with conversation 7 present and
limit −1 ("every integer limit"), the Go code slices
`messages[len+1:]`, whose bound check fails — a panic, not a result. -/
theorem claim_C8_counterexample :
    (findConv [⟨7, [], 0, 0, emptyContext⟩] 7).isSome = true
    ∧ GetRecentMessages [⟨7, [], 0, 0, emptyContext⟩] 7 (-1) = none := by
  exact ⟨rfl, rfl⟩

/-- Claim C8 (amended): for every non-negative limit GetRecentMessages
never panics, and for a present id it returns the last
min(limit, len) stored messages in stored (chronological) order. -/
theorem claim_C8_amended (s : ConvStore) (conversationID : ℕ) (limit : ℤ)
    (hlim : 0 ≤ limit) :
    (GetRecentMessages s conversationID limit).isSome = true
  ∧ (∀ conv, findConv s conversationID = some conv →
      GetRecentMessages s conversationID limit
        = some (.ok (conv.messages.drop
            (conv.messages.length - limit.toNat)))
      ∧ (conv.messages.drop (conv.messages.length - limit.toNat)).length
          = min limit.toNat conv.messages.length) := by
  rcases hf : findConv s conversationID with _ | conv
  · refine ⟨?_, ?_⟩
    · rw [getRecent_notfound s conversationID limit hf]
      rfl
    · intro conv hconv
      cases hconv
  · have hmain :
        GetRecentMessages s conversationID limit
          = some (.ok (conv.messages.drop
              (conv.messages.length - limit.toNat))) := by
      rw [getRecent_found s conversationID limit conv hf]
      by_cases hle : (conv.messages.length : ℤ) ≤ limit
      · rw [if_pos hle]
        have hz : conv.messages.length - limit.toNat = 0 := by omega
        rw [hz, List.drop_zero]
      · rw [if_neg hle]
        have hcond : 0 ≤ (conv.messages.length : ℤ) - limit
            ∧ (conv.messages.length : ℤ) - limit
                ≤ (conv.messages.length : ℤ) := by omega
        rw [if_pos hcond]
        have ht : ((conv.messages.length : ℤ) - limit).toNat
            = conv.messages.length - limit.toNat := by omega
        rw [ht]
    refine ⟨by rw [hmain]; rfl, ?_⟩
    intro conv2 hconv2
    injection hconv2 with h2
    subst h2
    refine ⟨hmain, ?_⟩
    rw [List.length_drop]
    omega

/-- Witness for the amended claim C8: the last 2 of 3 messages come back
in stored order. -/
theorem claim_C8_amended_witness :
    GetRecentMessages
        [⟨7, [⟨1, "user", "a", 1⟩, ⟨2, "assistant", "b", 2⟩,
            ⟨3, "user", "c", 3⟩], 0, 3, emptyContext⟩] 7 2
      = some (.ok [⟨2, "assistant", "b", 2⟩, ⟨3, "user", "c", 3⟩]) := by
  have h := ((claim_C8_amended
      [⟨7, [⟨1, "user", "a", 1⟩, ⟨2, "assistant", "b", 2⟩,
          ⟨3, "user", "c", 3⟩], 0, 3, emptyContext⟩] 7 2 (by decide)).2
      ⟨7, [⟨1, "user", "a", 1⟩, ⟨2, "assistant", "b", 2⟩,
          ⟨3, "user", "c", 3⟩], 0, 3, emptyContext⟩ rfl).1
  rw [h]
  rfl

/-- The conversation built by `Manager.CreateConversation` (both `Now`
calls modelled as the same instant). -/
def newConversation (id now : ℕ) : Conversation :=
  ⟨id, [], now, now, emptyContext⟩

/-- One store operation, carrying the wall-clock instant at which it runs
(the argument Go reads from `time.Now()`). -/
inductive StoreOp where
  | create (id now : ℕ)
  | update (conv : Conversation) (now : ℕ)
  | addMessage (id : ℕ) (msg : Message) (now : ℕ)
  | updateContext (id : ℕ) (ctx : Context) (now : ℕ)
  | cleanup (maxAge now : ℕ)
deriving DecidableEq

/-- Store transition relation of `conversation.Manager`: Create inserts a
fresh conversation; Update replaces the stored one (stamping updatedAt);
AddMessage appends and stamps; UpdateContext replaces context and stamps;
Cleanup deletes strictly-older-than-cutoff conversations. -/
def step (s : ConvStore) : StoreOp → ConvStore
  | .create id now => newConversation id now :: eraseConv s id
  | .update conv now =>
      match findConv s conv.id with
      | none => s
      | some _ => { conv with updatedAt := now } :: eraseConv s conv.id
  | .addMessage id msg now =>
      match findConv s id with
      | none => s
      | some conv =>
          { conv with messages := conv.messages ++ [msg], updatedAt := now }
            :: eraseConv s id
  | .updateContext id ctx now =>
      match findConv s id with
      | none => s
      | some conv =>
          { conv with context := ctx, updatedAt := now } :: eraseConv s id
  | .cleanup maxAge now =>
      s.filter (fun c => !decide (c.updatedAt < now - maxAge))

/-- Non-decreasing timestamp list. -/
def sortedTs : List ℕ → Bool
  | [] => true
  | [_] => true
  | a :: b :: r => decide (a ≤ b) && sortedTs (b :: r)

/-- The per-conversation invariant of claim C9. -/
def convOK (c : Conversation) : Bool :=
  decide (c.createdAt ≤ c.updatedAt)
    && sortedTs (c.messages.map (fun msg => msg.timestamp))

/-- The claimed store invariant. -/
def storeOK (s : ConvStore) : Bool := s.all convOK

/-- Well-clocked operation: arguments are consistent with reading the
clock at call time (conversation objects are not fabricated with future
creation times or unsorted message lists, and added messages do not go
backwards in time).  The store itself checks none of this. -/
def benign (s : ConvStore) : StoreOp → Bool
  | .create _ _ => true
  | .update conv now =>
      decide (conv.createdAt ≤ now)
        && sortedTs (conv.messages.map (fun msg => msg.timestamp))
  | .addMessage id msg now =>
      match findConv s id with
      | none => true
      | some conv =>
          decide (conv.createdAt ≤ now)
            && conv.messages.all
                (fun m2 => decide (m2.timestamp ≤ msg.timestamp))
  | .updateContext id _ now =>
      match findConv s id with
      | none => true
      | some conv => decide (conv.createdAt ≤ now)
  | .cleanup _ _ => true

/-- Run a sequence of store operations from a state. -/
def runOps (s : ConvStore) : List StoreOp → ConvStore
  | [] => s
  | op :: ops => runOps (step s op) ops

/-- Every operation of the sequence is benign in the state it runs in. -/
def benignAll (s : ConvStore) : List StoreOp → Bool
  | [] => true
  | op :: ops => benign s op && benignAll (step s op) ops

lemma sortedTs_append (l : List ℕ) (t : ℕ) (hs : sortedTs l = true)
    (hall : ∀ x ∈ l, x ≤ t) : sortedTs (l ++ [t]) = true := by
  induction l with
  | nil => rfl
  | cons a tl ih =>
    cases tl with
    | nil =>
        simp only [List.cons_append, List.nil_append, sortedTs,
          Bool.and_eq_true, decide_eq_true_eq]
        exact ⟨hall a (List.mem_singleton.mpr rfl), trivial⟩
    | cons b tl2 =>
        simp only [sortedTs, Bool.and_eq_true, decide_eq_true_eq] at hs
        have hall2 : ∀ x ∈ b :: tl2, x ≤ t := by
          intro x hx
          exact hall x (List.mem_cons_of_mem a hx)
        have hrec := ih hs.2 hall2
        simp only [List.cons_append, sortedTs, Bool.and_eq_true,
          decide_eq_true_eq] at hrec ⊢
        exact ⟨hs.1, hrec⟩

lemma convOK_true_iff (c : Conversation) :
    convOK c = true ↔
      c.createdAt ≤ c.updatedAt
      ∧ sortedTs (c.messages.map (fun msg => msg.timestamp)) = true := by
  simp [convOK]

lemma storeOK_mem (s : ConvStore) (c : Conversation)
    (hs : storeOK s = true) (hc : c ∈ s) : convOK c = true := by
  rw [storeOK, List.all_eq_true] at hs
  exact hs c hc

lemma storeOK_filter (s : ConvStore) (p : Conversation → Bool)
    (hs : storeOK s = true) : storeOK (s.filter p) = true := by
  rw [storeOK, List.all_eq_true]
  intro c hc
  exact storeOK_mem s c hs (List.mem_of_mem_filter hc)

lemma storeOK_erase (s : ConvStore) (id : ℕ) (hs : storeOK s = true) :
    storeOK (eraseConv s id) = true :=
  storeOK_filter s _ hs

lemma storeOK_cons (c : Conversation) (s : ConvStore)
    (hc : convOK c = true) (hs : storeOK s = true) :
    storeOK (c :: s) = true := by
  rw [storeOK, List.all_cons, hc]
  have hs2 : List.all s convOK = true := hs
  rw [hs2]
  rfl

lemma findConv_mem (s : ConvStore) (id : ℕ) (conv : Conversation)
    (h : findConv s id = some conv) : conv ∈ s :=
  List.mem_of_find?_eq_some h

lemma step_preserves (s : ConvStore) (op : StoreOp)
    (hs : storeOK s = true) (hb : benign s op = true) :
    storeOK (step s op) = true := by
  cases op with
  | create id now =>
      rw [step]
      refine storeOK_cons _ _ ?_ (storeOK_erase s id hs)
      simp [convOK, newConversation, sortedTs]
  | update conv now =>
      rw [step]
      rcases hf : findConv s conv.id with _ | old
      · exact hs
      · rw [benign, Bool.and_eq_true, decide_eq_true_eq] at hb
        refine storeOK_cons _ _ ?_ (storeOK_erase s conv.id hs)
        rw [convOK_true_iff]
        exact ⟨hb.1, hb.2⟩
  | addMessage id msg now =>
      rw [step]
      rcases hf : findConv s id with _ | conv
      · exact hs
      · rw [benign, hf] at hb
        rw [Bool.and_eq_true, decide_eq_true_eq, List.all_eq_true] at hb
        have hcok := storeOK_mem s conv hs (findConv_mem s id conv hf)
        rw [convOK_true_iff] at hcok
        refine storeOK_cons _ _ ?_ (storeOK_erase s id hs)
        rw [convOK_true_iff]
        constructor
        · exact hb.1
        · rw [List.map_append, List.map_singleton]
          refine sortedTs_append _ _ hcok.2 ?_
          intro x hx
          rw [List.mem_map] at hx
          obtain ⟨m2, hm2, hts⟩ := hx
          have hle := hb.2 m2 hm2
          rw [decide_eq_true_eq] at hle
          omega
  | updateContext id ctx now =>
      rw [step]
      rcases hf : findConv s id with _ | conv
      · exact hs
      · rw [benign, hf, decide_eq_true_eq] at hb
        have hcok := storeOK_mem s conv hs (findConv_mem s id conv hf)
        rw [convOK_true_iff] at hcok
        refine storeOK_cons _ _ ?_ (storeOK_erase s id hs)
        rw [convOK_true_iff]
        exact ⟨hb, hcok.2⟩
  | cleanup maxAge now =>
      rw [step]
      exact storeOK_filter s _ hs

lemma runOps_preserves (ops : List StoreOp) :
    ∀ s, storeOK s = true → benignAll s ops = true →
      storeOK (runOps s ops) = true := by
  induction ops with
  | nil => intro s hs _; exact hs
  | cons op ops ih =>
      intro s hs hb
      rw [benignAll, Bool.and_eq_true] at hb
      rw [runOps]
      exact ih (step s op) (step_preserves s op hs hb.1) hb.2

/-- Counterexample to claim C9 as stated: the store appends caller-supplied
messages without checking timestamps, so a sequence of plain store
operations (with a monotone wall clock) reaches a conversation whose
message timestamps decrease (5 then 3). -/
theorem claim_C9_counterexample :
    storeOK (runOps []
      [.create 1 0,
       .addMessage 1 ⟨1, "user", "hi", 5⟩ 1,
       .addMessage 1 ⟨2, "assistant", "ok", 3⟩ 2]) = false := by
  decide

/-- Claim C9 (amended): every conversation reachable through a sequence of
well-clocked store operations (update arguments carry sorted messages and
a creation time not after the call; added messages never move backwards in
time) satisfies updatedAt ≥ createdAt with non-decreasing message
timestamps.  The store itself enforces none of this on its arguments. -/
theorem claim_C9_amended (ops : List StoreOp)
    (h : benignAll [] ops = true) : storeOK (runOps [] ops) = true :=
  runOps_preserves ops [] rfl h

/-- Witness for the amended claim C9: a benign create/add/add/update/
cleanup run ends in an invariant-satisfying store. -/
theorem claim_C9_amended_witness :
    storeOK (runOps []
      [.create 1 0,
       .addMessage 1 ⟨1, "user", "hi", 3⟩ 4,
       .addMessage 1 ⟨2, "assistant", "ok", 6⟩ 7,
       .updateContext 1 emptyContext 9,
       .cleanup 100 10]) = true :=
  claim_C9_amended
    [.create 1 0,
     .addMessage 1 ⟨1, "user", "hi", 3⟩ 4,
     .addMessage 1 ⟨2, "assistant", "ok", 6⟩ 7,
     .updateContext 1 emptyContext 9,
     .cleanup 100 10]
    (by decide)

/-- Prefix match on character lists (Go `strings.Contains` helper). -/
def charsMatch : List Char → List Char → Bool
  | [], _ => true
  | _ :: _, [] => false
  | a :: as, b :: bs => a == b && charsMatch as bs

/-- Does the pattern occur somewhere in the character list? -/
def subAt : List Char → List Char → Bool
  | p, [] => charsMatch p []
  | p, c :: rest => charsMatch p (c :: rest) || subAt p rest

/-- Go `strings.Contains s pat`. -/
def goContains (s pat : String) : Bool := subAt pat.data s.data

/-- `Service.parseCommand` (ollama variant): the rule-based fallback.  The
context argument is accepted and ignored exactly as in the source. -/
def parseCommand (message0 : String) (c : Context) :
    String × List DeviceAction :=
  let message := message0.trim.toLower
  if goContains message "turn on" && goContains message "light" then
    ("I" ++ sq ++ "ll turn on the lights for you.",
      [⟨"turn_on", some []⟩])
  else if goContains message "turn off" && goContains message "light" then
    ("I" ++ sq ++ "ll turn off the lights for you.",
      [⟨"turn_off", some []⟩])
  else if goContains message "dim" && goContains message "light" then
    ("I" ++ sq ++ "ll dim the lights for you.",
      [⟨"set_brightness", some [("brightness", .int 128)]⟩])
  else if goContains message "temperature"
      || goContains message "thermostat" then
    if goContains message "set" then
      ("I" ++ sq ++ "ll adjust the temperature for you.",
        [⟨"set_temperature", some [("temperature", .int 22)]⟩])
    else
      ("The current temperature is 22°C. Would you like me to adjust it?",
        [])
  else if goContains message "status" || goContains message "what" then
    ("I can help you control your smart home devices. Try asking me to turn on lights, adjust temperature, or check device status.",
      [])
  else
    ("I understand you want to control your smart home, but I" ++ sq
      ++ "m not sure exactly what you" ++ sq
      ++ "d like me to do. Could you be more specific?", [])

/-- `Service.extractActionsFromResponse` (ollama variant). -/
def extractActionsFromResponse (response0 : String) : List DeviceAction :=
  let response := response0.toLower
  (if goContains response "turn on" || goContains response "turning on" then
      [(⟨"turn_on", some []⟩ : DeviceAction)]
    else [])
  ++ (if goContains response "turn off"
        || goContains response "turning off" then
      [(⟨"turn_off", some []⟩ : DeviceAction)]
    else [])
  ++ (if goContains response "dim" || goContains response "dimming" then
      [(⟨"set_brightness", some [("brightness", .int 128)]⟩ : DeviceAction)]
    else [])

/-- `Service.ProcessMessage`, ollama variant: `genResult` is the outcome
of `generateResponse` for this call (the single backend interaction). -/
def ProcessMessageOllama (connected : Bool)
    (genResult : Except String String) (message : String) (c : Context) :
    Except String (String × List DeviceAction) :=
  if !connected then .error "not connected to Ollama"
  else
    match genResult with
    | .error _ => .ok (parseCommand message c)
    | .ok resp => .ok (resp, extractActionsFromResponse resp)

/-- `Service.ProcessMessage`, local variant: `parse` models
`parseResponse`, which never returns an error in the source (a JSON
failure yields the raw response), hence a total function; the
`formatPrompt` error path cannot fire for the constant templates and is
omitted. -/
def ProcessMessageLocal (loaded : Bool) (genResult : Except String String)
    (parse : String → String × List DeviceAction) :
    Except String (String × List DeviceAction) :=
  if !loaded then .error "model not loaded"
  else
    match genResult with
    | .error e => .error ("failed to generate response: " ++ e)
    | .ok resp => .ok (parse resp)

/-- Counterexample to claim C5 as stated: in the local variant (one of the
two cited ProcessMessage implementations) a backend generation failure
while loaded is surfaced as an error instead of falling back. -/
theorem claim_C5_counterexample :
    ProcessMessageLocal true (.error "backend failure")
        (fun r => (r, []))
      = .error "failed to generate response: backend failure" := rfl

/-- Claim C5 (amended): in the ollama variant, ProcessMessage returns an
error exactly when not connected, and on a backend generation failure it
silently falls back to the rule-based parseCommand so the caller still
gets a reply and action list; in the local variant a generation failure
while loaded is returned as an error. -/
theorem claim_C5_amended (connected loaded : Bool)
    (genResult : Except String String) (message : String) (c : Context)
    (parse : String → String × List DeviceAction) :
    (connected = false →
        ProcessMessageOllama connected genResult message c
          = .error "not connected to Ollama")
  ∧ (connected = true →
        (∃ reply actions,
            ProcessMessageOllama connected genResult message c
              = .ok (reply, actions))
        ∧ (∀ e, genResult = .error e →
            ProcessMessageOllama connected genResult message c
              = .ok (parseCommand message c)))
  ∧ (loaded = true → ∀ e, genResult = .error e →
        ProcessMessageLocal loaded genResult parse
          = .error ("failed to generate response: " ++ e))
  ∧ (loaded = false →
        ProcessMessageLocal loaded genResult parse
          = .error "model not loaded") := by
  refine ⟨?_, ?_, ?_, ?_⟩
  · intro hc
    subst hc
    rfl
  · intro hc
    subst hc
    constructor
    · rcases genResult with e | resp
      · exact ⟨(parseCommand message c).1, (parseCommand message c).2, rfl⟩
      · exact ⟨resp, extractActionsFromResponse resp, rfl⟩
    · intro e he
      subst he
      rfl
  · intro hl e he
    subst hl
    subst he
    rfl
  · intro hl
    subst hl
    rfl

/-- Witness for the amended claim C5: connected, backend failing — the
caller still receives the rule-based reply. -/
theorem claim_C5_amended_witness :
    ProcessMessageOllama true (.error "boom") "turn on the light"
        emptyContext
      = .ok (parseCommand "turn on the light" emptyContext) :=
  ((claim_C5_amended true true (.error "boom") "turn on the light"
      emptyContext (fun r => (r, []))).2.1 rfl).2 "boom" rfl

end GptHome
